import Mathlib

/-!
Verification development for the `newton_forces_mcp` repository.

The repository exposes physics "tools": vector normalization and net-force
computation (`src/diagram/diagram.py`), polar conversion (`src/vectors/vectors.py`),
force formulas (`src/forces/forces.py`), and a two-tier expression evaluator
(`src/math/math_server.py`).  This file shallowly embeds those functions:
Python strings become `List Char`/`String` with hand-rolled structural
implementations of `str.split`, the `in` substring test and `float()` parsing;
Python floats become `ℚ` while parsing and `ℝ` once trigonometry enters;
Python exceptions become `Except PyError`; the two external evaluation
libraries of `math_server.py` are abstracted as function parameters.
-/

namespace NewtonForces

/-! ### Python string primitives -/

/-- Python's whitespace set as used by `str.split()` and `float()`:
space, tab, newline, carriage return, vertical tab, form feed. -/
def pyIsSpace (c : Char) : Bool :=
  c == ' ' || c == '\t' || c == '\n' || c == '\r' ||
    c == Char.ofNat 11 || c == Char.ofNat 12

/-- `sub` occurs as a contiguous substring: Python's `sub in s`. -/
def hasInfix (sub : List Char) : List Char → Bool
  | [] => sub.isEmpty
  | c :: cs => sub.isPrefixOf (c :: cs) || hasInfix sub cs

/-- Fuel-driven worker for Python's `str.split(sep)` (non-empty `sep`):
scan left to right, cutting at each non-overlapping occurrence of `sep`. -/
def pySplitAux (sep : List Char) : Nat → List Char → List Char → List (List Char)
  | 0, _, acc => [acc.reverse]
  | _ + 1, [], acc => [acc.reverse]
  | fuel + 1, c :: cs, acc =>
    if sep.isPrefixOf (c :: cs) then
      acc.reverse :: pySplitAux sep fuel (List.drop sep.length (c :: cs)) []
    else
      pySplitAux sep fuel cs (c :: acc)

/-- Python's `s.split(sep)` for a non-empty separator. -/
def pySplitSep (s sep : String) : List (List Char) :=
  pySplitAux sep.data (s.data.length + 1) s.data []

/-- Worker for Python's `s.split()` (no argument): split on runs of
whitespace and drop empty pieces. -/
def pySplitWsAux : List Char → List Char → List (List Char)
  | [], acc => if acc.isEmpty then [] else [acc.reverse]
  | c :: cs, acc =>
    if pyIsSpace c then
      if acc.isEmpty then pySplitWsAux cs [] else acc.reverse :: pySplitWsAux cs []
    else
      pySplitWsAux cs (c :: acc)

/-- Python's `s.split()` with no argument. -/
def pySplitWs (l : List Char) : List (List Char) :=
  pySplitWsAux l []

/-! ### Python `float()` on strings -/

/-- Split off a maximal leading run of decimal digits. -/
def takeDigits : List Char → List Char × List Char
  | [] => ([], [])
  | c :: cs =>
    if c.isDigit then
      let p := takeDigits cs
      (c :: p.1, p.2)
    else
      ([], c :: cs)

def digitsToNat (l : List Char) : ℕ :=
  l.foldl (fun acc c => 10 * acc + (c.toNat - '0'.toNat)) 0

/-- Parse the part of a float literal after `e`/`E`: optional sign then
a non-empty digit run that must exhaust the input. -/
def parseExp : List Char → Option ℤ
  | [] => none
  | c :: cs =>
    let p : ℤ × List Char :=
      if c == '+' then (1, cs) else if c == '-' then (-1, cs) else (1, c :: cs)
    let d := takeDigits p.2
    if d.1.isEmpty || !d.2.isEmpty then none
    else some (p.1 * (digitsToNat d.1 : ℤ))

/-- Python's `float(s)` on the character list `s`, parsed into an exact
decimal `(n, k)` standing for `n / 10^k` (rationals standing in for IEEE
doubles): strip surrounding whitespace, optional sign, digits with an
optional fractional part, optional `e`/`E` exponent; anything else fails.
(`inf`/`nan` and digit-group underscores are not modelled.)  The split into
integer parts keeps the parser kernel-computable; `partsVal` assembles the
numeric value. -/
def pyFloatParts (l0 : List Char) : Option (ℤ × ℕ) :=
  let l1 := ((l0.dropWhile pyIsSpace).reverse.dropWhile pyIsSpace).reverse
  let s2 : ℤ × List Char :=
    match l1 with
    | '+' :: r => (1, r)
    | '-' :: r => (-1, r)
    | r => (1, r)
  let ipr := takeDigits s2.2
  let fpr : List Char × List Char :=
    match ipr.2 with
    | '.' :: r => takeDigits r
    | r => ([], r)
  if ipr.1.isEmpty && fpr.1.isEmpty then none
  else
    let mnum : ℤ :=
      s2.1 * ((digitsToNat ipr.1 : ℤ) * 10 ^ fpr.1.length + (digitsToNat fpr.1 : ℤ))
    match fpr.2 with
    | [] => some (mnum, fpr.1.length)
    | c :: cs =>
      if c == 'e' || c == 'E' then
        match parseExp cs with
        | some e =>
          if 0 ≤ e then some (mnum * 10 ^ e.toNat, fpr.1.length)
          else some (mnum, fpr.1.length + e.natAbs)
        | none => none
      else none

/-- The rational value of a parsed decimal `(n, k)`, i.e. `n / 10^k`. -/
def partsVal (p : ℤ × ℕ) : ℚ :=
  (p.1 : ℚ) / 10 ^ p.2

/-- Python's `float(s)` on a `String`, as a rational value. -/
def pyFloatString (s : String) : Option ℚ :=
  (pyFloatParts s.data).map partsVal

/-! ### The duck-typed vector input of `diagram.py` -/

/-- An element of a Python list passed as a vector component. -/
inductive Elem where
  | num (q : ℚ)
  | str (s : String)
  | other
deriving DecidableEq

/-- The shapes of Python values reaching `parse_vector`: a dict holding both
`"magnitude"` and `"angle_deg"` (numeric), any other dict, a list (of
`float()`-able or not elements), a string, or anything else. -/
inductive VecInput where
  | dictMA (magnitude angle_deg : ℚ)
  | dictOther
  | list (elems : List Elem)
  | str (s : String)
  | other
deriving DecidableEq

/-- A raised Python exception (its class and message are irrelevant here). -/
inductive PyError where
  | exc
deriving DecidableEq

/-- Python's `float(e)` on a list element: numbers pass through, strings go
through the string parser, anything else raises. -/
def pyFloat (e : Elem) : Except PyError ℚ :=
  match e with
  | .num q => .ok q
  | .str s =>
    match pyFloatParts s.data with
    | some p => .ok (partsVal p)
    | none => .error .exc
  | .other => .error .exc

/-- The decision core of `parse_vector`'s string branch
(`diagram.py` lines 20–29): inside `try`, when `"at" in vec`, magnitude is
`float(vec.split("=")[1].split()[0])` and angle is
`float(vec.split("at")[1].split()[0])`; `none` means the branch falls
through to `[0.0, 0.0]` (either no `"at"` or a caught exception). -/
def stringBranchCore (s : String) : Option ((ℤ × ℕ) × (ℤ × ℕ)) :=
  if hasInfix "at".data s.data then
    (do
      let t1 ← (pySplitSep s "=")[1]?
      let tok1 ← (pySplitWs t1)[0]?
      let mag ← pyFloatParts tok1
      let t2 ← (pySplitSep s "at")[1]?
      let tok2 ← (pySplitWs t2)[0]?
      let angle ← pyFloatParts tok2
      pure (mag, angle))
  else
    none

/-- `math.radians`. -/
noncomputable def radians (deg : ℝ) : ℝ :=
  deg * Real.pi / 180

/-- `math.degrees`. -/
noncomputable def degrees (rad : ℝ) : ℝ :=
  rad * 180 / Real.pi

/-- `parse_vector` from `src/diagram/diagram.py` (lines 11–31).  Branches in
source order: magnitude/angle dict, two-element list (where `float()` on a
bad element raises out of the function), string (all exceptions caught),
and the final `return [0.0, 0.0]` fall-through. -/
noncomputable def parse_vector (vec : VecInput) : Except PyError (ℝ × ℝ) :=
  match vec with
  | .dictMA m a =>
    .ok ((m : ℝ) * Real.cos (radians (a : ℝ)), (m : ℝ) * Real.sin (radians (a : ℝ)))
  | .list es =>
    match es with
    | [e1, e2] => do
      let x ← pyFloat e1
      let y ← pyFloat e2
      pure ((x : ℝ), (y : ℝ))
    | _ => .ok (0, 0)
  | .str s =>
    match stringBranchCore s with
    | some (m, a) =>
      .ok ((partsVal m : ℝ) * Real.cos (radians (partsVal a : ℝ)),
        (partsVal m : ℝ) * Real.sin (radians (partsVal a : ℝ)))
    | none => .ok (0, 0)
  | .dictOther => .ok (0, 0)
  | .other => .ok (0, 0)

/-! ### `src/vectors/vectors.py` -/

/-- C's `atan2(y, x)` as used by `math.atan2`: the angle of the point
`(x, y)`, in `(-π, π]`, with `atan2 0 0 = 0`. -/
noncomputable def atan2 (y x : ℝ) : ℝ :=
  if 0 < x then Real.arctan (y / x)
  else if x < 0 then
    (if 0 ≤ y then Real.arctan (y / x) + Real.pi else Real.arctan (y / x) - Real.pi)
  else
    (if 0 < y then Real.pi / 2 else if y < 0 then -(Real.pi / 2) else 0)

/-- `from_magnitude_angle` from `src/vectors/vectors.py`. -/
noncomputable def from_magnitude_angle (magnitude angle_deg : ℝ) : ℝ × ℝ :=
  (magnitude * Real.cos (radians angle_deg), magnitude * Real.sin (radians angle_deg))

/-- `to_magnitude_angle` from `src/vectors/vectors.py` (lines 14–20):
`magnitude = math.hypot x y`, `angle = math.degrees (math.atan2 y x)`,
then `angle += 360` when negative. -/
noncomputable def to_magnitude_angle (x y : ℝ) : ℝ × ℝ :=
  let magnitude := Real.sqrt (x ^ 2 + y ^ 2)
  let angle := degrees (atan2 y x)
  (magnitude, if angle < 0 then angle + 360 else angle)

/-! ### `src/forces/forces.py` -/

/-- The module constant `GRAVITY = 9.8`. -/
noncomputable def GRAVITY : ℝ := 9.8

/-- `tension` from `src/forces/forces.py` (lines 24–31): `weight` and `mass`
default to `None` (here `Option.none`); a supplied weight is returned as is,
otherwise a supplied mass gives `mass * gravity`, otherwise `0.0`. -/
noncomputable def tension (weight mass : Option ℝ) (gravity : ℝ) : ℝ :=
  match weight with
  | some w => w
  | none =>
    match mass with
    | some m => m * gravity
    | none => 0.0

/-- `normal_force` from `src/forces/forces.py` (lines 33–38):
`mass * gravity * (1 if incline_angle_deg == 0 else math.cos theta)` with
`theta = math.radians incline_angle_deg`. -/
noncomputable def normal_force (mass gravity incline_angle_deg : ℝ) : ℝ :=
  mass * gravity *
    (if incline_angle_deg = 0 then 1 else Real.cos (radians incline_angle_deg))

/-! ### `src/math/math_server.py` -/

/-- `evaluate_expression` from `src/math/math_server.py` (lines 8–20).
The two external evaluation libraries are parameters: `pintEval` models
`ureg.parse_expression` followed by the two formattings of the quantity and
its base-unit reduction (its `Except.error` carries the exception message),
and `sympyEval` models `sp.sympify`/`sp.simplify` with its formatting. -/
def evaluate_expression (pintEval : String → Except String (String × String))
    (sympyEval : String → Except String String) (expr : String) : String :=
  match pintEval expr with
  | .ok rb => expr ++ " = " ++ rb.1 ++ " = " ++ rb.2
  | .error pexc =>
    match sympyEval expr with
    | .ok v => expr ++ " = " ++ v
    | .error sexc =>
      "Error: Could not evaluate expression. (Pint: " ++ pexc ++ "; SymPy: " ++ sexc ++ ")"

/-! ### `src/diagram/diagram.py`: net force -/

/-- Python's float `%` (`a % b = a - b * floor (a / b)`, the result taking
the sign of `b`). -/
noncomputable def pyFmod (a b : ℝ) : ℝ :=
  a - b * (⌊a / b⌋ : ℝ)

/-- The angle normalization `(math.degrees (math.atan2 y x) + 360) % 360`
used by `net_force` and `vector_label` in `src/diagram/diagram.py`. -/
noncomputable def angle360 (x y : ℝ) : ℝ :=
  pyFmod (degrees (atan2 y x) + 360) 360

/-- The accumulation loop of `net_force` (`src/diagram/diagram.py`
lines 85–93): starting from `(0, 0)`, each input goes through
`parse_vector` and is added componentwise; an uncaught exception from
`parse_vector` aborts the whole call. -/
noncomputable def net_force_components (forces : List VecInput) :
    Except PyError (ℝ × ℝ) :=
  forces.foldlM
    (fun acc f => do
      let v ← parse_vector f
      pure (acc.1 + v.1, acc.2 + v.2))
    (0, 0)

/-- The magnitude `math.hypot net_x net_y` reported by `net_force`. -/
noncomputable def net_force_mag (forces : List VecInput) : Except PyError ℝ := do
  let v ← net_force_components forces
  pure (Real.sqrt (v.1 ^ 2 + v.2 ^ 2))

/-- The direction `(math.degrees (math.atan2 net_y net_x) + 360) % 360`
reported by `net_force`. -/
noncomputable def net_force_angle (forces : List VecInput) : Except PyError ℝ := do
  let v ← net_force_components forces
  pure (angle360 v.1 v.2)

/-! ### `src/diagram/diagram.py`: the renderer

`svgwrite` is external:  the only process-global state it contributes is its
auto-id counter, used for elements created without an explicit `id`
(`draw_free_body` passes `id="arrow"`, so the counter is never consumed).
Float-to-decimal formatting of coordinates and of the `%.2f`/`%.1f` label
fields cannot be computed on `ℝ`, so the three formatters are parameters —
in the program each is one fixed function, identical across calls. -/

/-- A force dict `{label?, vector}` as consumed by `draw_free_body`
(`force.get("label", ...)` tolerates a missing label). -/
structure ForceEntry where
  label : Option String
  vector : VecInput
deriving DecidableEq

/-- The fixed palette `color_cycle` of `draw_free_body`. -/
def color_cycle : List String :=
  ["red", "blue", "green", "purple", "orange", "brown", "darkcyan"]

/-- The process-global `svgwrite` auto-id counter. -/
structure SvgState where
  nextAutoId : ℕ
deriving DecidableEq

/-- Element-id assignment in `svgwrite`: an explicitly given id is used
unchanged; otherwise the global counter is consumed. -/
def markerIdOf (given : Option String) (st : SvgState) : String × SvgState :=
  match given with
  | some i => (i, st)
  | none => ("id" ++ toString st.nextAutoId, ⟨st.nextAutoId + 1⟩)

def attr (k v : String) : String :=
  " " ++ k ++ "=\"" ++ v ++ "\""

def circleTag (fmtc : ℝ → String) (cx cy r : ℝ) (fill stroke sw : String) : String :=
  "<circle" ++ attr "cx" (fmtc cx) ++ attr "cy" (fmtc cy) ++ attr "r" (fmtc r) ++
    attr "fill" fill ++ attr "stroke" stroke ++ attr "stroke-width" sw ++ " />"

def textTag (fmtc : ℝ → String) (content : String) (x y : ℝ)
    (fontSize fill : String) : String :=
  "<text" ++ attr "x" (fmtc x) ++ attr "y" (fmtc y) ++ attr "font-size" fontSize ++
    attr "fill" fill ++ ">" ++ content ++ "</text>"

def lineTag (fmtc : ℝ → String) (x1 y1 x2 y2 : ℝ) (stroke sw markerEnd : String) :
    String :=
  "<line" ++ attr "x1" (fmtc x1) ++ attr "y1" (fmtc y1) ++ attr "x2" (fmtc x2) ++
    attr "y2" (fmtc y2) ++ attr "stroke" stroke ++ attr "stroke-width" sw ++
    attr "marker-end" markerEnd ++ " />"

/-- The single arrowhead marker, defined once in `defs` with the id chosen by
`markerIdOf`. -/
def markerDefs (mid : String) : String :=
  "<defs><marker" ++ attr "id" mid ++
    " insert=\"(10, 5)\" size=\"(10, 10)\" orient=\"auto\">" ++
    "<polygon points=\"0,0 10,5 0,10\" fill=\"black\" /></marker></defs>"

/-- `vector_label` from `src/diagram/diagram.py` (lines 33–36); `fmt2`/`fmt1`
stand for the `%.2f`/`%.1f` float formattings. -/
noncomputable def vector_label (fmt2 fmt1 : ℝ → String) (v : ℝ × ℝ)
    (name unit : String) : String :=
  let mag := Real.sqrt (v.1 ^ 2 + v.2 ^ 2)
  let angle := angle360 v.1 v.2
  name ++ " (" ++ fmt2 mag ++ " " ++ unit ++ " @ " ++ fmt1 angle ++ "°)"

/-- The loop body of `draw_free_body` for one force at position `idx`:
parse the vector, compute the clamped arrow `length = max 30 (mag * 30)`,
the endpoint with the SVG vertical-axis flip, the palette color
`idx % len color_cycle`, and emit the arrow line plus its midpoint label. -/
noncomputable def forceMarkup (fmtc fmt2 fmt1 : ℝ → String) (markerId : String)
    (idx : ℕ) (force : ForceEntry) : Except PyError String := do
  let vec ← parse_vector force.vector
  let mag := Real.sqrt (vec.1 ^ 2 + vec.2 ^ 2)
  let angle := atan2 vec.2 vec.1
  let len := max 30 (mag * 30)
  let x2 := (200 : ℝ) + len * Real.cos angle
  let y2 := (200 : ℝ) - len * Real.sin angle
  let color := color_cycle.getD (idx % color_cycle.length) ""
  let label := force.label.getD (vector_label fmt2 fmt1 vec "" "N")
  let label_x := ((200 : ℝ) + x2) / 2 + 10
  let label_y := ((200 : ℝ) + y2) / 2 - 10
  pure (lineTag fmtc 200 200 x2 y2 color "4" ("url(#" ++ markerId ++ ")") ++
    textTag fmtc label label_x label_y "12px" color)

/-- `draw_free_body` from `src/diagram/diagram.py` (lines 38–77), threading
the `svgwrite` auto-id state: a 400×400 canvas, the anchor circle at
`(200, 200)` with the object label beneath it, one shared arrowhead marker
created with the explicit id `"arrow"`, then one arrow and one text label
per force, in input order. -/
noncomputable def draw_free_body (fmtc fmt2 fmt1 : ℝ → String)
    (forces : List ForceEntry) (object_name : String) (st : SvgState) :
    Except PyError (String × SvgState) := do
  let m := markerIdOf (some "arrow") st
  let body ← forces.enum.mapM (fun p => forceMarkup fmtc fmt2 fmt1 m.1 p.1 p.2)
  pure ("<svg width=\"400\" height=\"400\">" ++ markerDefs m.1 ++
    circleTag fmtc 200 200 20 "lightgrey" "black" "2" ++
    textTag fmtc object_name 178 245 "16px" "black" ++
    String.join body ++ "</svg>", m.2)

/-! ### `src/diagram/diagram.py`: `smart_diagram` -/

/-- The shapes of inputs to `smart_diagram`, in the order its `elif` chain
tests them: a dict with `"label"` and `"vector"`, a dict with `"magnitude"`
and `"angle_deg"`, a list, a string, anything else. -/
inductive SmartInput where
  | labeled (label : String) (vector : VecInput)
  | dictMA (magnitude angle_deg : ℚ)
  | list (elems : List Elem)
  | str (s : String)
  | other
deriving DecidableEq

/-- One iteration of the `smart_diagram` input loop
(`src/diagram/diagram.py` lines 98–110) at enumerate-index `idx`.
`sympifyFloat` models the external `float(sp.sympify(f))`: `none` when
either step raises, which the `except` clause turns into *appending
nothing*.  `none` here means the iteration appends no force dict. -/
def smartEntry (sympifyFloat : String → Option ℚ) (idx : ℕ) (f : SmartInput) :
    Option ForceEntry :=
  match f with
  | .labeled lbl v => some ⟨some lbl, v⟩
  | .dictMA m a => some ⟨some ("F" ++ toString (idx + 1)), VecInput.dictMA m a⟩
  | .list es =>
    if es.length = 2 then
      some ⟨some ("F" ++ toString (idx + 1)), VecInput.list es⟩
    else
      none
  | .str s =>
    match sympifyFloat s with
    | some mag =>
      some ⟨some ("F" ++ toString (idx + 1)), VecInput.list [Elem.num mag, Elem.num 0]⟩
    | none => none
  | .other => none

/-- The `force_dicts` list built by `smart_diagram`, with the running
enumerate index made explicit. -/
def smartForceDictsFrom (sf : String → Option ℚ) : ℕ → List SmartInput → List ForceEntry
  | _, [] => []
  | idx, f :: rest =>
    match smartEntry sf idx f with
    | some e => e :: smartForceDictsFrom sf (idx + 1) rest
    | none => smartForceDictsFrom sf (idx + 1) rest

/-- The `force_dicts` list built by `smart_diagram` from its raw inputs. -/
def smartForceDicts (sf : String → Option ℚ) (forces : List SmartInput) :
    List ForceEntry :=
  smartForceDictsFrom sf 0 forces

/-- `smart_diagram` from `src/diagram/diagram.py` (lines 96–112): build
`force_dicts` and hand them to `draw_free_body`. -/
noncomputable def smart_diagram (sf : String → Option ℚ) (fmtc fmt2 fmt1 : ℝ → String)
    (forces : List SmartInput) (object_name : String) (st : SvgState) :
    Except PyError (String × SvgState) :=
  draw_free_body fmtc fmt2 fmt1 (smartForceDicts sf forces) object_name st

/-- Spec-side predicate (§4.3 of the spec, scope of claim C5), following the
spec's words: a vector input whose shape is not recognized — not a
two-element component list, not a magnitude/angle mapping, not free text
that the string parse accepts. -/
def unrecognizedShape : VecInput → Prop
  | .dictMA _ _ => False
  | .dictOther => True
  | .list es => es.length ≠ 2
  | .str s => stringBranchCore s = none
  | .other => True

/-! ## Theorems -/

lemma ok_bind {ε α β : Type} (a : α) (f : α → Except ε β) :
    (Except.ok a : Except ε α) >>= f = f a :=
  rfl

lemma atan2_le_pi (y x : ℝ) : atan2 y x ≤ Real.pi := by
  have hπ := Real.pi_pos
  unfold atan2
  split_ifs with h1 h2 h3 h4 h5
  · linarith [Real.arctan_lt_pi_div_two (y / x)]
  · have hyx : y / x ≤ 0 := div_nonpos_iff.mpr (Or.inl ⟨h3, h2.le⟩)
    have h0 : Real.arctan (y / x) ≤ Real.arctan 0 := Real.arctan_strictMono.monotone hyx
    rw [Real.arctan_zero] at h0
    linarith
  · linarith [Real.arctan_lt_pi_div_two (y / x)]
  · linarith
  · linarith
  · linarith

lemma neg_pi_lt_atan2 (y x : ℝ) : -Real.pi < atan2 y x := by
  have hπ := Real.pi_pos
  unfold atan2
  split_ifs with h1 h2 h3 h4 h5
  · linarith [Real.neg_pi_div_two_lt_arctan (y / x)]
  · linarith [Real.neg_pi_div_two_lt_arctan (y / x)]
  · have hx : x < 0 := h2
    have hy : y < 0 := lt_of_not_ge h3
    have hyx : 0 < y / x := div_pos_iff.mpr (Or.inr ⟨hy, hx⟩)
    have h0 : Real.arctan 0 < Real.arctan (y / x) := Real.arctan_strictMono hyx
    rw [Real.arctan_zero] at h0
    linarith
  · linarith
  · linarith
  · linarith

/-- C6: for every pair of real inputs, `to_magnitude_angle` returns the
Euclidean norm `√(x² + y²)` as magnitude (hence nonnegative) and an angle in
degrees lying in `[0, 360)`. -/
theorem to_magnitude_angle_spec (x y : ℝ) :
    (to_magnitude_angle x y).1 = Real.sqrt (x ^ 2 + y ^ 2)
    ∧ 0 ≤ (to_magnitude_angle x y).1
    ∧ 0 ≤ (to_magnitude_angle x y).2
    ∧ (to_magnitude_angle x y).2 < 360 := by
  have hπ := Real.pi_pos
  have hub := atan2_le_pi y x
  have hlb := neg_pi_lt_atan2 y x
  have hdub : degrees (atan2 y x) ≤ 180 := by
    rw [degrees, div_le_iff₀ hπ]
    nlinarith
  have hdlb : -180 < degrees (atan2 y x) := by
    rw [degrees, lt_div_iff₀ hπ]
    nlinarith
  refine ⟨rfl, Real.sqrt_nonneg _, ?_, ?_⟩
  · show (0 : ℝ) ≤ (if degrees (atan2 y x) < 0 then degrees (atan2 y x) + 360
      else degrees (atan2 y x))
    split_ifs with h
    · linarith
    · linarith
  · show (if degrees (atan2 y x) < 0 then degrees (atan2 y x) + 360
      else degrees (atan2 y x)) < 360
    split_ifs with h
    · linarith
    · linarith

/-- C7: `normal_force` returns `m * g` on a flat surface
(`incline_angle_deg = 0`) and `m * g * cos θ` (θ in radians) on an incline;
`normal_force 5 9.8 30 = 5 * 9.8 * cos (radians 30)`, which lies strictly
between 42.43 and 42.44 (so ≈ 42.44). -/
theorem normal_force_spec :
    (∀ m g θ : ℝ,
      (θ = 0 → normal_force m g θ = m * g)
      ∧ (θ ≠ 0 → normal_force m g θ = m * g * Real.cos (radians θ)))
    ∧ normal_force 5 9.8 30 = 5 * 9.8 * Real.cos (radians 30)
    ∧ 42.43 < normal_force 5 9.8 30
    ∧ normal_force 5 9.8 30 < 42.44 := by
  have hval : normal_force 5 9.8 30 = 5 * 9.8 * Real.cos (radians 30) := by
    rw [normal_force, if_neg (by norm_num)]
  have hrad : radians 30 = Real.pi / 6 := by
    rw [radians]; ring
  have hcos : Real.cos (radians 30) = Real.sqrt 3 / 2 := by
    rw [hrad, Real.cos_pi_div_six]
  have hs3 : Real.sqrt 3 ^ 2 = 3 := Real.sq_sqrt (by norm_num)
  have hs3n : 0 ≤ Real.sqrt 3 := Real.sqrt_nonneg 3
  refine ⟨?_, hval, ?_, ?_⟩
  · intro m g θ
    constructor
    · intro h; rw [normal_force, if_pos h]; ring
    · intro h; rw [normal_force, if_neg h]
  · rw [hval, hcos]; nlinarith
  · rw [hval, hcos]; nlinarith

/-- Witness for `normal_force_spec`: the flat-surface branch at
`(2, 10, 0)` and the incline value at `(5, 9.8, 30)`. -/
theorem normal_force_spec_witness :
    normal_force 2 10 0 = 2 * 10 ∧ 42.43 < normal_force 5 9.8 30 :=
  ⟨(normal_force_spec.1 2 10 0).1 rfl, normal_force_spec.2.2.1⟩

/-- C8: `tension` returns the supplied weight when both weight and mass are
given (weight takes precedence), and `mass * gravity` when only a mass is
given. -/
theorem tension_weight_precedence (w m g : ℝ) :
    tension (some w) (some m) g = w ∧ tension none (some m) g = m * g :=
  ⟨rfl, rfl⟩

/-- C10: `tension` with neither a weight nor a mass supplied returns `0.0`
(it does not fail: the function is total and ends in `return 0.0`). -/
theorem tension_no_args_zero (g : ℝ) : tension none none g = 0 := by
  norm_num [tension]

/-- C3: when both the unit-aware evaluation and the symbolic evaluation
fail, `evaluate_expression` returns a message containing both underlying
failure causes; when the unit-aware evaluation succeeds, the symbolic
evaluator is not consulted (the result does not depend on it). -/
theorem evaluate_expression_combines_errors
    (pintEval : String → Except String (String × String))
    (sympyEval : String → Except String String)
    (expr p s : String)
    (hp : pintEval expr = Except.error p)
    (hs : sympyEval expr = Except.error s) :
    List.IsInfix p.data (evaluate_expression pintEval sympyEval expr).data
    ∧ List.IsInfix s.data (evaluate_expression pintEval sympyEval expr).data
    ∧ (∀ (pint2 : String → Except String (String × String)) (rb : String × String)
        (symA symB : String → Except String String),
        pint2 expr = Except.ok rb →
        evaluate_expression pint2 symA expr = evaluate_expression pint2 symB expr) := by
  have hres : evaluate_expression pintEval sympyEval expr =
      "Error: Could not evaluate expression. (Pint: " ++ p ++ "; SymPy: " ++ s ++ ")" := by
    rw [evaluate_expression, hp, hs]
  refine ⟨?_, ?_, ?_⟩
  · rw [hres]
    exact ⟨"Error: Could not evaluate expression. (Pint: ".data,
      ("; SymPy: " ++ s ++ ")").data, by simp⟩
  · rw [hres]
    exact ⟨("Error: Could not evaluate expression. (Pint: " ++ p ++ "; SymPy: ").data,
      ")".data, by simp⟩
  · intro pint2 rb symA symB h2
    rw [evaluate_expression, evaluate_expression, h2]

/-- Witness for `evaluate_expression_combines_errors`: with both evaluators
failing on `"2foo"`, both failure messages occur in the combined error. -/
theorem evaluate_expression_combines_errors_witness :
    List.IsInfix "no pint parse".data
      (evaluate_expression (fun _ => Except.error "no pint parse")
        (fun _ => Except.error "no sympy parse") "2foo").data
    ∧ List.IsInfix "no sympy parse".data
      (evaluate_expression (fun _ => Except.error "no pint parse")
        (fun _ => Except.error "no sympy parse") "2foo").data := by
  have h := evaluate_expression_combines_errors
    (fun _ => Except.error "no pint parse")
    (fun _ => Except.error "no sympy parse")
    "2foo" "no pint parse" "no sympy parse" rfl rfl
  exact ⟨h.1, h.2.1⟩

lemma pi_div_two_sub_third_lt_arctan_three :
    Real.pi / 2 - 1 / 3 < Real.arctan 3 := by
  have hinv : Real.arctan (3⁻¹ : ℝ) = Real.pi / 2 - Real.arctan 3 :=
    Real.arctan_inv_of_pos (by norm_num)
  have hpos : 0 < Real.arctan (3⁻¹ : ℝ) := by
    have := Real.arctan_strictMono (show (0 : ℝ) < 3⁻¹ by norm_num)
    rwa [Real.arctan_zero] at this
  have hlt : Real.arctan (3⁻¹ : ℝ) < Real.pi / 2 := Real.arctan_lt_pi_div_two _
  have ht : Real.arctan (3⁻¹ : ℝ) < 3⁻¹ := by
    have := Real.lt_tan hpos hlt
    rwa [Real.tan_arctan] at this
  rw [hinv] at ht
  have h3 : (3⁻¹ : ℝ) = 1 / 3 := by norm_num
  linarith [ht, h3.le]

lemma arctan3_deg_bounds :
    70 < Real.arctan 3 * 180 / Real.pi ∧ Real.arctan 3 * 180 / Real.pi < 90 := by
  have hπ := Real.pi_pos
  have hgt3 := Real.pi_gt_three
  have h1 := pi_div_two_sub_third_lt_arctan_three
  have h2 := Real.arctan_lt_pi_div_two 3
  constructor
  · rw [lt_div_iff₀ hπ]
    nlinarith
  · rw [div_lt_iff₀ hπ]
    nlinarith

/-- The concrete input of the spec's `net_force` example: `[[3, 4], [0, 5]]`. -/
def exForces : List VecInput :=
  [VecInput.list [Elem.num 3, Elem.num 4], VecInput.list [Elem.num 0, Elem.num 5]]

lemma net_force_components_ex :
    net_force_components exForces = Except.ok ((3 : ℝ), 9) := by
  simp [exForces, net_force_components, List.foldlM, parse_vector, pyFloat, ok_bind]
  norm_num

lemma angle360_three_nine : angle360 3 9 = Real.arctan 3 * 180 / Real.pi := by
  have hπ := Real.pi_pos
  have hb := arctan3_deg_bounds
  have hatan : atan2 9 3 = Real.arctan 3 := by
    rw [atan2, if_pos (by norm_num : (0 : ℝ) < 3)]
    norm_num
  have hdeq : degrees (Real.arctan 3) = Real.arctan 3 * 180 / Real.pi := rfl
  have h70 : 70 < degrees (Real.arctan 3) := by rw [hdeq]; exact hb.1
  have h90 : degrees (Real.arctan 3) < 90 := by rw [hdeq]; exact hb.2
  rw [angle360, hatan, pyFmod]
  have hfloor : ⌊(degrees (Real.arctan 3) + 360) / 360⌋ = 1 := by
    rw [Int.floor_eq_iff]
    constructor
    · push_cast
      rw [le_div_iff₀ (by norm_num : (0 : ℝ) < 360)]
      linarith
    · push_cast
      rw [div_lt_iff₀ (by norm_num : (0 : ℝ) < 360)]
      linarith
  rw [hfloor, hdeq]
  push_cast
  ring

/-- C1 counterexample: on `[[3, 4], [0, 5]]`, the direction `net_force`
reports is `arctan 3` in degrees, which exceeds 70° and therefore is not the
claimed 57.99°. -/
theorem net_force_angle_not_57_99 :
    net_force_angle exForces = Except.ok (Real.arctan 3 * 180 / Real.pi)
    ∧ 70 < Real.arctan 3 * 180 / Real.pi
    ∧ Real.arctan 3 * 180 / Real.pi ≠ 57.99 := by
  refine ⟨?_, arctan3_deg_bounds.1, ?_⟩
  · rw [net_force_angle, net_force_components_ex]
    simp [angle360_three_nine]
  · intro h
    have h70 := arctan3_deg_bounds.1
    rw [h] at h70
    norm_num at h70

/-- C1 as amended: `net_force [[3, 4], [0, 5]]` returns the componentwise
sum `(3, 9)` and reports magnitude `√90 ≈ 9.486` N at direction
`arctan 3 · 180 / π ≈ 71.57` degrees CCW from the +x axis (strictly between
70° and 90°), not 57.99°. -/
theorem net_force_3_4_0_5_spec :
    net_force_components exForces = Except.ok (3, 9)
    ∧ net_force_mag exForces = Except.ok (Real.sqrt 90)
    ∧ 9.48 < Real.sqrt 90 ∧ Real.sqrt 90 < 9.49
    ∧ net_force_angle exForces = Except.ok (Real.arctan 3 * 180 / Real.pi)
    ∧ 70 < Real.arctan 3 * 180 / Real.pi
    ∧ Real.arctan 3 * 180 / Real.pi < 90 := by
  have hsq := Real.sq_sqrt (show (0 : ℝ) ≤ 90 by norm_num)
  have hnn := Real.sqrt_nonneg (90 : ℝ)
  refine ⟨net_force_components_ex, ?_, by nlinarith, by nlinarith, ?_,
    arctan3_deg_bounds.1, arctan3_deg_bounds.2⟩
  · rw [net_force_mag, net_force_components_ex]
    norm_num
  · rw [net_force_angle, net_force_components_ex]
    simp [angle360_three_nine]

/-- C2 counterexample: `"3 at 30"` matches the claimed pattern
`"<number> at <number>"` yet parses to the zero vector, not to
`(3 cos 30°, 3 sin 30°)`; and the bare scalar `"5"` parses to the zero
vector, not to `[5, 0]`. -/
theorem parse_vector_text_claim_false :
    parse_vector (VecInput.str "3 at 30") = Except.ok (0, 0)
    ∧ parse_vector (VecInput.str "3 at 30")
        ≠ Except.ok (3 * Real.cos (radians 30), 3 * Real.sin (radians 30))
    ∧ parse_vector (VecInput.str "5") = Except.ok (0, 0)
    ∧ parse_vector (VecInput.str "5") ≠ Except.ok (5, 0) := by
  have h1 : stringBranchCore "3 at 30" = none := by decide
  have h2 : stringBranchCore "5" = none := by decide
  have hz1 : parse_vector (VecInput.str "3 at 30") = Except.ok (0, 0) := by
    simp [parse_vector, h1]
  have hz2 : parse_vector (VecInput.str "5") = Except.ok (0, 0) := by
    simp [parse_vector, h2]
  have hcos : Real.cos (radians 30) = Real.sqrt 3 / 2 := by
    rw [show radians 30 = Real.pi / 6 by rw [radians]; ring, Real.cos_pi_div_six]
  have hcpos : 0 < 3 * Real.cos (radians 30) := by
    rw [hcos]
    have := Real.sqrt_pos.mpr (show (0 : ℝ) < 3 by norm_num)
    linarith
  refine ⟨hz1, ?_, hz2, ?_⟩
  · intro h
    rw [hz1] at h
    simp only [Except.ok.injEq, Prod.mk.injEq] at h
    linarith [h.1]
  · intro h
    rw [hz2] at h
    simp only [Except.ok.injEq, Prod.mk.injEq] at h
    norm_num at h

/-- C2 as amended: a free-text vector parses to nonzero components only
when it contains the substring `"at"` (case-sensitively) *and* an `"="`:
the magnitude is the first whitespace token after the first `"="` and the
angle the first token after the first `"at"`, each a bare float literal
(an attached unit suffix such as `"3N"` makes the parse fail, so even the
code comment's own example `"F=3N at 30 deg"` yields zero).  Every string
with no `"at"` — bare scalars included — yields `[0, 0]`: there is no
scalar fallback. -/
theorem parse_vector_text_spec (s : String)
    (h : hasInfix "at".data s.data = false) :
    parse_vector (VecInput.str s) = Except.ok (0, 0)
    ∧ parse_vector (VecInput.str "F=3 at 30")
        = Except.ok (3 * Real.cos (radians 30), 3 * Real.sin (radians 30))
    ∧ parse_vector (VecInput.str "F=3N at 30 deg") = Except.ok (0, 0) := by
  have hcore : stringBranchCore s = none := by
    rw [stringBranchCore, h]
    simp
  have hok : stringBranchCore "F=3 at 30" = some ((3, 0), (30, 0)) := by decide
  have hbad : stringBranchCore "F=3N at 30 deg" = none := by decide
  refine ⟨by simp [parse_vector, hcore], ?_, by simp [parse_vector, hbad]⟩
  simp [parse_vector, hok, partsVal]

/-- Witness for `parse_vector_text_spec`: the bare scalar `"5"` contains no
`"at"` and yields the zero vector (not `[5, 0]`). -/
theorem parse_vector_text_spec_witness :
    hasInfix "at".data "5".data = false
    ∧ parse_vector (VecInput.str "5") = Except.ok (0, 0) :=
  ⟨by decide, (parse_vector_text_spec "5" (by decide)).1⟩

/-- C5 counterexample: the full return value of `parse_vector` on malformed
text is exactly `[0, 0]` — identical to its result on a genuine zero vector
`[0, 0]` — so no caller-visible diagnostic accompanies the degraded result
(the spec's claimed diagnostic does not exist in the code). -/
theorem parse_vector_no_diagnostic :
    parse_vector (VecInput.str "garbage") = Except.ok (0, 0)
    ∧ parse_vector (VecInput.str "garbage")
        = parse_vector (VecInput.list [Elem.num 0, Elem.num 0]) := by
  have h : stringBranchCore "garbage" = none := by decide
  have h1 : parse_vector (VecInput.str "garbage") = Except.ok (0, 0) := by
    simp [parse_vector, h]
  have h2 : parse_vector (VecInput.list [Elem.num 0, Elem.num 0])
      = Except.ok (0, 0) := by
    simp [parse_vector, pyFloat, ok_bind]
  exact ⟨h1, h1.trans h2.symm⟩

/-- C5 as amended: every vector input whose shape is not recognized yields
the zero vector `[0, 0]` without raising (the result is always `Except.ok`),
but silently — with no diagnostic. -/
theorem parse_vector_unrecognized_zero (v : VecInput) (h : unrecognizedShape v) :
    parse_vector v = Except.ok (0, 0) := by
  cases v with
  | dictMA m a => exact h.elim
  | dictOther => rfl
  | other => rfl
  | str s =>
    have hs : stringBranchCore s = none := h
    simp [parse_vector, hs]
  | list es =>
    have hlen : es.length ≠ 2 := h
    rcases es with _ | ⟨a, _ | ⟨b, _ | ⟨c, t⟩⟩⟩
    · rfl
    · rfl
    · simp at hlen
    · rfl

/-- Witness for `parse_vector_unrecognized_zero`: the empty list is not a
two-element component list, and yields the zero vector. -/
theorem parse_vector_unrecognized_zero_witness :
    unrecognizedShape (VecInput.list [])
    ∧ parse_vector (VecInput.list []) = Except.ok (0, 0) :=
  ⟨by norm_num [unrecognizedShape],
    parse_vector_unrecognized_zero (VecInput.list []) (by norm_num [unrecognizedShape])⟩

/-- C4: the renderer is deterministic.  In the embedding the only
process-global state the renderer touches is the `svgwrite` auto-id counter
(`SvgState`), and `draw_free_body` creates its marker with the fixed id
`"arrow"`, so two calls with the same object name and the same ordered force
list — from arbitrary, possibly different, global states — return the same
markup string.  The float formatters are parameters because the program's
(fixed, deterministic) float-to-decimal formatting is not computable on `ℝ`;
they are the same functions across both calls, as in the program. -/
theorem draw_free_body_deterministic (fmtc fmt2 fmt1 : ℝ → String)
    (forces : List ForceEntry) (object_name : String) (s1 s2 : SvgState) :
    (draw_free_body fmtc fmt2 fmt1 forces object_name s1).map Prod.fst
      = (draw_free_body fmtc fmt2 fmt1 forces object_name s2).map Prod.fst := by
  rw [draw_free_body, draw_free_body]
  show (Except.map Prod.fst (forces.enum.mapM
      (fun p => forceMarkup fmtc fmt2 fmt1 "arrow" p.1 p.2) >>= _))
    = (Except.map Prod.fst (forces.enum.mapM
      (fun p => forceMarkup fmtc fmt2 fmt1 "arrow" p.1 p.2) >>= _))
  cases forces.enum.mapM (fun p => forceMarkup fmtc fmt2 fmt1 "arrow" p.1 p.2) with
  | error e => rfl
  | ok body => rfl

lemma smartForceDictsFrom_snoc_none (sf : String → Option ℚ) (s : String)
    (h : sf s = none) :
    ∀ (idx : ℕ) (l : List SmartInput),
      smartForceDictsFrom sf idx (l ++ [SmartInput.str s])
        = smartForceDictsFrom sf idx l := by
  intro idx l
  induction l generalizing idx with
  | nil => simp [smartForceDictsFrom, smartEntry, h]
  | cons f rest ih =>
    simp only [List.cons_append, smartForceDictsFrom]
    cases smartEntry sf idx f <;> simp [ih]

lemma smartForceDictsFrom_length_le (sf : String → Option ℚ) :
    ∀ (idx : ℕ) (l : List SmartInput),
      (smartForceDictsFrom sf idx l).length ≤ l.length := by
  intro idx l
  induction l generalizing idx with
  | nil => simp [smartForceDictsFrom]
  | cons f rest ih =>
    simp only [smartForceDictsFrom, List.length_cons]
    cases smartEntry sf idx f with
    | none => exact le_trans (ih _) (Nat.le_succ _)
    | some e =>
      simp only [List.length_cons]
      exact Nat.succ_le_succ (ih _)

/-- C9: in `smart_diagram`, a string force entry on which
`float(sp.sympify(...))` fails contributes nothing at all to `force_dicts` —
no arrow, no zero-vector placeholder, no diagnostic — so the built list
(and hence the arrow count of the rendered diagram, one arrow per entry)
is strictly shorter than the supplied force list, and the final markup is
identical to the one for the list without that entry. -/
theorem smart_diagram_omits_unparsable (sf : String → Option ℚ)
    (pre : List SmartInput) (s : String) (fmtc fmt2 fmt1 : ℝ → String)
    (object_name : String) (st : SvgState) (h : sf s = none) :
    smartForceDicts sf (pre ++ [SmartInput.str s]) = smartForceDicts sf pre
    ∧ (smartForceDicts sf (pre ++ [SmartInput.str s])).length
        < (pre ++ [SmartInput.str s]).length
    ∧ smart_diagram sf fmtc fmt2 fmt1 (pre ++ [SmartInput.str s]) object_name st
        = smart_diagram sf fmtc fmt2 fmt1 pre object_name st := by
  have heq : smartForceDicts sf (pre ++ [SmartInput.str s]) = smartForceDicts sf pre :=
    smartForceDictsFrom_snoc_none sf s h 0 pre
  refine ⟨heq, ?_, ?_⟩
  · rw [heq]
    calc (smartForceDicts sf pre).length
        ≤ pre.length := smartForceDictsFrom_length_le sf 0 pre
      _ < (pre ++ [SmartInput.str s]).length := by simp
  · rw [smart_diagram, smart_diagram, heq]

/-- Witness for `smart_diagram_omits_unparsable`: with a symbolic evaluator
that fails on everything, appending the string entry `"mass"` after one good
component-list entry leaves `force_dicts` unchanged and strictly shorter
than the input list. -/
theorem smart_diagram_omits_unparsable_witness :
    smartForceDicts (fun _ => none)
        ([SmartInput.list [Elem.num 1, Elem.num 2]] ++ [SmartInput.str "mass"])
      = smartForceDicts (fun _ => none) [SmartInput.list [Elem.num 1, Elem.num 2]]
    ∧ (smartForceDicts (fun _ => none)
        ([SmartInput.list [Elem.num 1, Elem.num 2]] ++ [SmartInput.str "mass"])).length
      < ([SmartInput.list [Elem.num 1, Elem.num 2]] ++ [SmartInput.str "mass"]).length := by
  have h := smart_diagram_omits_unparsable (fun _ => none)
    [SmartInput.list [Elem.num 1, Elem.num 2]] "mass"
    (fun _ => "") (fun _ => "") (fun _ => "") "Body" ⟨0⟩ rfl
  exact ⟨h.1, h.2.1⟩

end NewtonForces
